import Mathlib

/-!
Shallow embedding of the morpheusvm `controller` package (hypersdk example VM):
the lifecycle adapter with `Initialize`, `Rules`, `Accepted` and `Shutdown`.
Pure data is modelled by Lean structures; the fallible external collaborators
(metrics registry, config/genesis parsers, storage, handler registration,
proposer construction, batch staging and commit) are modelled as explicit
outcome parameters in an environment record, and the controller's side effects
are made explicit in returned state/effect records.
-/

/-! ## Data model for the commit pipeline (`Accepted`) -/

/-- An on-chain action, as dispatched by the `switch action.(type)` in
`Accepted`: either a transfer action (`*actions.Transfer`) or any other
action kind, which the switch ignores. -/
inductive ActionKind where
  | transfer
  | other (kind : Nat)
deriving DecidableEq, Repr

/-- `true` exactly on the transfer action kind. -/
def isTransfer : ActionKind → Bool
  | .transfer => true
  | .other _ => false

/-- A transaction: its id (`tx.ID()`) and its action list (`tx.Actions`). -/
structure Tx where
  id : Nat
  actions : List ActionKind
deriving DecidableEq, Repr

/-- A per-transaction execution result: `result.Success`, `result.Units`,
`result.Fee`. -/
structure TxResult where
  success : Bool
  units : Nat
  fee : Nat
deriving DecidableEq, Repr

/-- A finalized block as consumed by `Accepted`: `blk.Txs`, `blk.Results()`
and `blk.GetTimestamp()`. -/
structure Block where
  txs : List Tx
  results : List TxResult
  timestamp : Int
deriving DecidableEq, Repr

/-- The archival record staged by `storage.StoreTransaction(ctx, batch,
tx.ID(), blk.GetTimestamp(), result.Success, result.Units, result.Fee)`:
keyed by the transaction id, holding the block timestamp and the result's
success flag, units and fee. -/
structure TxRecord where
  txid : Nat
  timestamp : Int
  success : Bool
  units : Nat
  fee : Nat
deriving DecidableEq, Repr

/-- The record `Accepted` stages for transaction `tx` with result `r` in a
block with timestamp `ts` (the argument list of the `StoreTransaction` call). -/
def mkRecord (tx : Tx) (ts : Int) (r : TxResult) : TxRecord :=
  ⟨tx.id, ts, r.success, r.units, r.fee⟩

/-- Number of transfer actions in an action list (the inner `for _, action`
loop increments the transfer counter once per `*actions.Transfer`). -/
def countTransfers (l : List ActionKind) : Nat :=
  (l.filter isTransfer).length

/-- Metric contribution of one (transaction, result) pair: the number of its
transfer actions if the result succeeded, else zero. -/
def txDelta (p : Tx × TxResult) : Nat :=
  if p.2.success then countTransfers p.1.actions else 0

/-- Total transfer-metric contribution of a list of (transaction, result)
pairs. -/
def transferDelta (l : List (Tx × TxResult)) : Nat :=
  (l.map txDelta).sum

/-- The controller configuration fields `Accepted` and `Initialize` read:
`LogLevel`, `TestMode`, `StoreTransactions`. -/
structure Config where
  logLevel : Nat
  testMode : Bool
  storeTransactions : Bool
deriving DecidableEq, Repr

/-- Environment of `Accepted`: the configuration plus the outcomes of the
fallible storage collaborators. `stageFails rec = some e` means the
`storage.StoreTransaction` call staging `rec` fails with underlying error
code `e`; `commitErr = some e` means the final `batch.Write()` fails with
error code `e`. -/
structure AcceptedEnv where
  cfg : Config
  stageFails : TxRecord → Option Nat
  commitErr : Option Nat

/-- Observable controller state touched by `Accepted`: durable storage (the
committed archival records, in commit order) and the in-memory transfer
metric counter. -/
structure AcceptedState where
  storage : List TxRecord
  transferCount : Nat
deriving DecidableEq, Repr

/-- An error value as returned to the caller: either a collaborator's error
propagated unmodified (`return err`), or the genesis-parse error wrapped
with context by `fmt.Errorf("unable to read genesis: %w", err)`. -/
inductive Err where
  | raw (e : Nat)
  | genesisWrap (e : Nat)
deriving DecidableEq, Repr

/-- `true` exactly on errors that were wrapped with phase context before
being returned. -/
def Err.isWrapped : Err → Bool
  | .raw _ => false
  | .genesisWrap _ => true

/-- Outcome of the transaction loop in `Accepted`: the staged batch and the
metric delta on normal completion, an early `return err` on a staging
failure, or a fatal index-out-of-range panic at `results[i]`. -/
inductive LoopOut where
  | ok (batch : List TxRecord) (delta : Nat)
  | err (e : Nat) (delta : Nat)
  | panicked (delta : Nat)
deriving DecidableEq, Repr

/-- The `for i, tx := range blk.Txs` loop of `Accepted`: for each transaction
it reads `results[i]` (panicking when out of range), stages an archival
record when `StoreTransactions` is set (returning the staging error early on
failure), and, when the result succeeded, increments the metric delta once
per transfer action. -/
def acceptedLoop (store : Bool) (fails : TxRecord → Option Nat) (ts : Int) :
    List Tx → List TxResult → List TxRecord → Nat → LoopOut
  | [], _, batch, delta => .ok batch delta
  | _ :: _, [], _, delta => .panicked delta
  | tx :: txs, r :: rs, batch, delta =>
    let record := mkRecord tx ts r
    match (if store then fails record else none) with
    | some e => .err e delta
    | none =>
      let batch' := if store then batch ++ [record] else batch
      let delta' := if r.success then delta + countTransfers tx.actions else delta
      acceptedLoop store fails ts txs rs batch' delta'

/-- Outcome of `Accepted`: a nil-error return with the new state, an error
return carrying the propagated error (the deferred `batch.Reset()` discards
the uncommitted batch, so storage is unchanged, while the metric increments
already made stay applied), or a fatal panic from an out-of-range
`results[i]` access. -/
inductive AcceptedOutcome where
  | ok (s : AcceptedState)
  | error (s : AcceptedState) (e : Err)
  | panicked (s : AcceptedState)
deriving DecidableEq, Repr

/-- `true` exactly on the fatal out-of-range outcome. -/
def AcceptedOutcome.isPanic : AcceptedOutcome → Bool
  | .panicked _ => true
  | _ => false

/-- `Controller.Accepted`: opens a write batch (discarded on every return
path by `defer batch.Reset()` unless committed), runs the transaction loop,
and finally commits the batch with `batch.Write()`. A `batch.Write()`
failure returns its error with nothing durably written (the batch write is
atomic). -/
def Accepted (env : AcceptedEnv) (s : AcceptedState) (blk : Block) :
    AcceptedOutcome :=
  match acceptedLoop env.cfg.storeTransactions env.stageFails blk.timestamp
      blk.txs blk.results [] 0 with
  | .panicked d => .panicked ⟨s.storage, s.transferCount + d⟩
  | .err e d => .error ⟨s.storage, s.transferCount + d⟩ (.raw e)
  | .ok batch d =>
    match env.commitErr with
    | some e => .error ⟨s.storage, s.transferCount + d⟩ (.raw e)
    | none => .ok ⟨s.storage ++ batch, s.transferCount + d⟩

example :
    Accepted ⟨⟨0, false, true⟩, fun _ => none, none⟩ ⟨[], 0⟩
      ⟨[⟨5, [.transfer, .other 3]⟩], [⟨true, 2, 1⟩], 100⟩
      = .ok ⟨[⟨5, 100, true, 2, 1⟩], 1⟩ := by decide

/-! ## Data model for `Initialize` and `Rules` -/

/-- The parsed genesis snapshot (`genesis.New(genesisBytes, upgradeBytes)`),
kept abstract: an immutable blob of genesis data. -/
structure GenesisData where
  raw : Nat
deriving DecidableEq, Repr

/-- Modelled from the spec: the rule set returned by the genesis snapshot's
`Rules(t, networkID, chainID)` method, whose body is outside this package.
Per the spec it is a pure projection of the immutable genesis snapshot plus
the network and chain identifiers, embedding both identifiers, valid at the
given logical timestamp. -/
structure ChainRules where
  networkID : Nat
  chainID : Nat
  snapshot : GenesisData
deriving DecidableEq, Repr

/-- Modelled from the spec: `genesis.Rules(t, networkID, chainID)` — a pure,
side-effect-free projection from the genesis snapshot and the two
identifiers into a `ChainRules` value; the timestamp selects the logical
validity point and upgrade activations are an unimplemented future hook, so
the projection is constant in `t`. -/
def GenesisData.rules (g : GenesisData) (_t : Int) (networkID chainID : Nat) :
    ChainRules :=
  ⟨networkID, chainID, g⟩

/-- The controller fields that `Rules` reads: the genesis snapshot set by
`Initialize` and the snow context's `NetworkID` and `ChainID`. -/
structure Controller where
  genesis : GenesisData
  networkID : Nat
  chainID : Nat
deriving DecidableEq, Repr

/-- `Controller.Rules(t)`: returns `c.genesis.Rules(t, c.snowCtx.NetworkID,
c.snowCtx.ChainID)`. Modelled state-passing to make the absence of mutation
explicit: the second component is the controller state after the call. -/
def Controller.Rules (c : Controller) (t : Int) : ChainRules × Controller :=
  (c.genesis.rules t c.networkID c.chainID, c)

/-- The builder strategy selected by `Initialize`: `builder.NewManual` or
`builder.NewTime`. -/
inductive BuilderKind where
  | manual
  | time
deriving DecidableEq, Repr

/-- Proposer gossiper parameters (`gossiper.ProposerConfig`), kept abstract. -/
structure ProposerConfig where
  raw : Nat
deriving DecidableEq, Repr

/-- Modelled from the spec: `gossiper.DefaultProposerConfig()`, the default
timing/fanout parameters, whose body is outside this package. -/
def defaultProposerConfig : ProposerConfig := ⟨0⟩

/-- The gossiper strategy selected by `Initialize`: `gossiper.NewManual` or
`gossiper.NewProposer` with the given parameters. -/
inductive GossiperKind where
  | manual
  | proposer (cfg : ProposerConfig)
deriving DecidableEq, Repr

/-- The fixed JSON-RPC endpoint name under which `Initialize` registers its
one custom handler (`apis[rpc.JSONRPCEndpoint] = jsonRPCHandler`), kept
abstract. -/
def jsonRPCEndpointId : Nat := 0

/-- Environment of `Initialize`: the outcome of each fallible external
collaborator, in source order. `some e` on an `Option Nat` field means that
collaborator fails with underlying error code `e`; `configRes` is the result
of `config.New(configBytes)` and `genesisData` the snapshot produced by
`genesis.New` on success. `proposerErr` is consulted only on the non-test
path that calls `gossiper.NewProposer`. -/
structure InitEnv where
  metricsErr : Option Nat
  configRes : Except Nat Config
  genesisErr : Option Nat
  genesisData : GenesisData
  storageErr : Option Nat
  handlerErr : Option Nat
  proposerErr : Option Nat

/-- The eight-component return of `Initialize`: the seven outputs, each
`none` when the Go code returns `nil` for it, plus the error. -/
structure InitOutputs where
  genesis : Option GenesisData
  build : Option BuilderKind
  gossip : Option GossiperKind
  handlers : Option (List Nat)
  actionRegistry : Option Unit
  authRegistry : Option Unit
  authEngines : Option Unit
  err : Option Err
deriving DecidableEq, Repr

/-- The all-`nil` error return `return nil, nil, nil, nil, nil, nil, nil, err`. -/
def allNil (e : Err) : InitOutputs :=
  ⟨none, none, none, none, none, none, none, some e⟩

/-- The side effects `Initialize` has performed by the time it returns:
whether the controller fields `inner`/`snowCtx`/`stateManager` were
assigned, whether the metrics were instantiated and registered with the
gatherer, which log level (if any) was applied to the host logger, and
whether the durable storage handle was opened. -/
structure InitEffects where
  fieldsAssigned : Bool
  metricsRegistered : Bool
  logLevelSet : Option Nat
  storageOpened : Bool
deriving DecidableEq, Repr

/-- `Controller.Initialize`, step for step in source order: assign the
controller fields; instantiate metrics (`newMetrics(gatherer)`); parse the
configuration (`config.New`); apply the configured log level; parse genesis
(`genesis.New`, its error wrapped with context); open durable storage
(`hstorage.New`); build the JSON-RPC handler map; select the
builder/gossiper pair by `TestMode`; return the full tuple. Every failure
returns the all-`nil` tuple with the error, plus the effects performed so
far. -/
def initCtrl (env : InitEnv) : InitOutputs × InitEffects :=
  let eff0 : InitEffects := ⟨true, false, none, false⟩
  match env.metricsErr with
  | some e => (allNil (.raw e), eff0)
  | none =>
    let eff1 : InitEffects := ⟨true, true, none, false⟩
    match env.configRes with
    | .error e => (allNil (.raw e), eff1)
    | .ok cfg =>
      let eff2 : InitEffects := ⟨true, true, some cfg.logLevel, false⟩
      match env.genesisErr with
      | some e => (allNil (.genesisWrap e), eff2)
      | none =>
        match env.storageErr with
        | some e => (allNil (.raw e), eff2)
        | none =>
          let eff3 : InitEffects := ⟨true, true, some cfg.logLevel, true⟩
          match env.handlerErr with
          | some e => (allNil (.raw e), eff3)
          | none =>
            if cfg.testMode then
              (⟨some env.genesisData, some .manual, some .manual,
                some [jsonRPCEndpointId], some (), some (), some (), none⟩,
               eff3)
            else
              match env.proposerErr with
              | some e => (allNil (.raw e), eff3)
              | none =>
                (⟨some env.genesisData, some .time,
                  some (.proposer defaultProposerConfig),
                  some [jsonRPCEndpointId], some (), some (), some (), none⟩,
                 eff3)

example :
    (initCtrl ⟨none, .ok ⟨3, true, false⟩, none, ⟨9⟩, none, none, none⟩).1
      = ⟨some ⟨9⟩, some .manual, some .manual, some [jsonRPCEndpointId],
         some (), some (), some (), none⟩ := by decide

example :
    initCtrl ⟨none, .error 5, none, ⟨9⟩, none, none, none⟩
      = (allNil (.raw 5), ⟨true, true, none, false⟩) := by decide

/-! ## Lemmas about the `Accepted` transaction loop -/

lemma transferDelta_cons (p : Tx × TxResult) (l : List (Tx × TxResult)) :
    transferDelta (p :: l) = txDelta p + transferDelta l := by
  simp [transferDelta]

/-- Inversion for a normal loop completion: the final batch is the initial
batch extended (when archival is on) by exactly one staged record per
(transaction, result) pair, in order, and the metric delta grew by the
transfer count of the successful transactions. -/
lemma acceptedLoop_ok_inv (store : Bool) (fails : TxRecord → Option Nat)
    (ts : Int) (txs : List Tx) :
    ∀ (rs : List TxResult) (batch : List TxRecord) (delta : Nat)
      (b : List TxRecord) (d : Nat),
      acceptedLoop store fails ts txs rs batch delta = .ok b d →
      b = batch ++
            (if store then (txs.zip rs).map (fun p => mkRecord p.1 ts p.2)
             else [])
        ∧ d = delta + transferDelta (txs.zip rs) := by
  induction txs with
  | nil =>
    intro rs batch delta b d h
    simp [acceptedLoop] at h
    simp [h.1, h.2, transferDelta]
  | cons tx txs ih =>
    intro rs batch delta b d h
    cases rs with
    | nil => simp [acceptedLoop] at h
    | cons r rs =>
      simp only [acceptedLoop] at h
      split at h
      · simp at h
      · obtain ⟨hb, hd⟩ := ih _ _ _ _ _ h
        constructor
        · rw [hb]
          cases store <;> simp [mkRecord]
        · rw [hd]
          simp only [List.zip_cons_cons, transferDelta_cons, txDelta]
          cases hs : r.success <;> simp [hs] <;> omega

/-- When the results list covers the transactions, the loop never reaches an
out-of-range access. -/
lemma acceptedLoop_no_panic (store : Bool) (fails : TxRecord → Option Nat)
    (ts : Int) (txs : List Tx) :
    ∀ (rs : List TxResult) (batch : List TxRecord) (delta d : Nat),
      txs.length ≤ rs.length →
      acceptedLoop store fails ts txs rs batch delta ≠ .panicked d := by
  induction txs with
  | nil =>
    intro rs batch delta d _ h
    simp [acceptedLoop] at h
  | cons tx txs ih =>
    intro rs batch delta d hlen h
    cases rs with
    | nil => simp at hlen
    | cons r rs =>
      simp only [acceptedLoop] at h
      split at h
      · simp at h
      · exact ih _ _ _ _ (by simpa using hlen) h

/-- When the results list is shorter than the transaction list and staging
never fails, the loop inevitably hits the out-of-range access. -/
lemma acceptedLoop_panic_of_short (store : Bool)
    (fails : TxRecord → Option Nat) (ts : Int) (txs : List Tx) :
    ∀ (rs : List TxResult) (batch : List TxRecord) (delta : Nat),
      rs.length < txs.length → (∀ rec, fails rec = none) →
      ∃ d, acceptedLoop store fails ts txs rs batch delta = .panicked d := by
  induction txs with
  | nil =>
    intro rs batch delta hlen _
    simp at hlen
  | cons tx txs ih =>
    intro rs batch delta hlen hok
    cases rs with
    | nil => exact ⟨delta, by simp [acceptedLoop]⟩
    | cons r rs =>
      obtain ⟨d, hd⟩ := ih rs
        (if store then batch ++ [mkRecord tx ts r] else batch)
        (if r.success then delta + countTransfers tx.actions else delta)
        (by simpa using hlen) hok
      exact ⟨d, by simp only [acceptedLoop, hok, if_pos, if_neg]; simp [hok]; exact hd⟩

/-- With archival on, the loop returns the staging error of the first
failing record, with the metric delta accumulated over the pairs before it. -/
lemma acceptedLoop_err_split (fails : TxRecord → Option Nat) (ts : Int)
    (pre : List Tx) :
    ∀ (rpre : List TxResult) (tx : Tx) (r : TxResult) (rest : List Tx)
      (rrest : List TxResult) (batch : List TxRecord) (delta e : Nat),
      pre.length = rpre.length →
      (∀ p ∈ pre.zip rpre, fails (mkRecord p.1 ts p.2) = none) →
      fails (mkRecord tx ts r) = some e →
      acceptedLoop true fails ts (pre ++ tx :: rest) (rpre ++ r :: rrest)
          batch delta
        = .err e (delta + transferDelta (pre.zip rpre)) := by
  induction pre with
  | nil =>
    intro rpre tx r rest rrest batch delta e hlen _ hfail
    cases rpre with
    | cons _ _ => simp at hlen
    | nil => simp [acceptedLoop, hfail, transferDelta]
  | cons tx0 pre ih =>
    intro rpre tx r rest rrest batch delta e hlen hok hfail
    cases rpre with
    | nil => simp at hlen
    | cons r0 rpre =>
      have h0 : fails (mkRecord tx0 ts r0) = none := by
        exact hok (tx0, r0) (by simp)
      simp only [List.cons_append, acceptedLoop, h0, if_true, List.append_eq]
      rw [ih rpre tx r rest rrest _ _ e (by simpa using hlen)
            (fun p hp => hok p (by simp [hp])) hfail]
      simp only [List.zip_cons_cons, transferDelta_cons, txDelta]
      cases hs : r0.success <;> simp [hs] <;> omega

/-! ## Claim theorems about `Accepted` -/

/-- C1: for every block with as many results as transactions, a successful
return of `Accepted` implies: with `StoreTransactions` enabled, storage
gained exactly one new archival record per transaction, in order, keyed by
the transaction's id and holding the block timestamp and the corresponding
result's success flag, units and fee; with the flag disabled, storage is
unchanged. -/
theorem accepted_success_archival (env : AcceptedEnv) (s : AcceptedState)
    (blk : Block) (s' : AcceptedState)
    (hN : blk.results.length = blk.txs.length)
    (h : Accepted env s blk = .ok s') :
    (env.cfg.storeTransactions = true →
        s'.storage = s.storage ++ (blk.txs.zip blk.results).map
            (fun p => ⟨p.1.id, blk.timestamp, p.2.success, p.2.units, p.2.fee⟩)
      ∧ s'.storage.length = s.storage.length + blk.txs.length)
    ∧ (env.cfg.storeTransactions = false → s'.storage = s.storage) := by
  unfold Accepted at h
  cases hl : acceptedLoop env.cfg.storeTransactions env.stageFails
      blk.timestamp blk.txs blk.results [] 0 with
  | panicked d => rw [hl] at h; simp at h
  | err e d => rw [hl] at h; simp at h
  | ok batch d =>
    rw [hl] at h
    cases hc : env.commitErr with
    | some e => rw [hc] at h; simp at h
    | none =>
      rw [hc] at h
      simp only [AcceptedOutcome.ok.injEq] at h
      obtain ⟨hb, _⟩ := acceptedLoop_ok_inv _ _ _ _ _ _ _ _ _ hl
      subst h
      constructor
      · intro hstore
        rw [hb, hstore]
        constructor
        · simp [mkRecord]
        · simp [List.length_zip, hN]
      · intro hstore
        rw [hb, hstore]
        simp

/-- C2: every error return of `Accepted` leaves durable storage unchanged —
the deferred batch reset discards uncommitted staged writes on the staging
error path, and a failed atomic batch commit writes nothing. -/
theorem accepted_error_no_write (env : AcceptedEnv) (s : AcceptedState)
    (blk : Block) (s' : AcceptedState) (e : Err)
    (h : Accepted env s blk = .error s' e) :
    s'.storage = s.storage := by
  unfold Accepted at h
  cases hl : acceptedLoop env.cfg.storeTransactions env.stageFails
      blk.timestamp blk.txs blk.results [] 0 with
  | panicked d => rw [hl] at h; simp at h
  | err e' d =>
    rw [hl] at h
    simp only [AcceptedOutcome.error.injEq] at h
    rw [← h.1]
  | ok batch d =>
    rw [hl] at h
    cases hc : env.commitErr with
    | some e' =>
      rw [hc] at h
      simp only [AcceptedOutcome.error.injEq] at h
      rw [← h.1]
    | none => rw [hc] at h; simp at h

/-- The number of transactions the claim C6 counts: successful transactions
whose action list contains at least one transfer action. Follows the claim's
words, for comparison against the code's behaviour. -/
def qualifyingTxCount (blk : Block) : Nat :=
  ((blk.txs.zip blk.results).filter
    (fun p => p.2.success && p.1.actions.any isTransfer)).length

/-- Environment for the transfer-metric counterexample: archival disabled,
staging never fails, commit succeeds. -/
def cexEnv6 : AcceptedEnv := ⟨⟨0, false, false⟩, fun _ => none, none⟩

/-- Counterexample block for C6: one successful transaction whose action
list holds two transfer actions. -/
def cexBlk6 : Block := ⟨[⟨1, [.transfer, .transfer]⟩], [⟨true, 1, 1⟩], 50⟩

/-- C6 counterexample: on a block with one successful transaction carrying
two transfer actions, `Accepted` increments the transfer counter by 2,
while the number of successful transactions containing a transfer action is
1 — the counter is per transfer action, not per qualifying transaction. -/
theorem accepted_transfer_metric_cex :
    Accepted cexEnv6 ⟨[], 0⟩ cexBlk6 = .ok ⟨[], 2⟩
    ∧ qualifyingTxCount cexBlk6 = 1 ∧ (2 : Nat) ≠ 1 := by decide

/-- C6 (amended): on a successful return of `Accepted`, the transfer-action
counter increased by exactly the total number of transfer actions across the
successful transactions (one increment per transfer action); other action
kinds contribute nothing and raise no error. -/
theorem accepted_transfer_metric (env : AcceptedEnv) (s : AcceptedState)
    (blk : Block) (s' : AcceptedState)
    (h : Accepted env s blk = .ok s') :
    s'.transferCount = s.transferCount + transferDelta (blk.txs.zip blk.results) := by
  unfold Accepted at h
  cases hl : acceptedLoop env.cfg.storeTransactions env.stageFails
      blk.timestamp blk.txs blk.results [] 0 with
  | panicked d => rw [hl] at h; simp at h
  | err e d => rw [hl] at h; simp at h
  | ok batch d =>
    rw [hl] at h
    cases hc : env.commitErr with
    | some e => rw [hc] at h; simp at h
    | none =>
      rw [hc] at h
      simp only [AcceptedOutcome.ok.injEq] at h
      obtain ⟨_, hd⟩ := acceptedLoop_ok_inv _ _ _ _ _ _ _ _ _ hl
      subst h
      simp [hd]

/-- C7: when the results vector has one entry per transaction, no
`results[i]` access in `Accepted` is out of bounds (no panic); when it is
shorter than the transaction list and staging raises no error first, the
access is a fatal out-of-range panic — a distinct outcome from a
recoverable error return. -/
theorem accepted_results_indexing (env : AcceptedEnv) (s : AcceptedState)
    (blk : Block) :
    (blk.results.length = blk.txs.length →
        (Accepted env s blk).isPanic = false)
    ∧ (blk.results.length < blk.txs.length →
        (∀ rec, env.stageFails rec = none) →
        (Accepted env s blk).isPanic = true) := by
  constructor
  · intro hN
    unfold Accepted
    cases hl : acceptedLoop env.cfg.storeTransactions env.stageFails
        blk.timestamp blk.txs blk.results [] 0 with
    | panicked d =>
      exact absurd hl (acceptedLoop_no_panic _ _ _ _ _ _ _ _ hN.symm.le)
    | err e d => simp [AcceptedOutcome.isPanic]
    | ok batch d => cases env.commitErr <;> simp [AcceptedOutcome.isPanic]
  · intro hshort hok
    obtain ⟨d, hd⟩ := acceptedLoop_panic_of_short env.cfg.storeTransactions
      env.stageFails blk.timestamp blk.txs blk.results [] 0 hshort hok
    unfold Accepted
    rw [hd]
    simp [AcceptedOutcome.isPanic]

/-- C10: when staging the archival record of the transaction right after a
failure-free prefix fails, `Accepted` returns that staging error with
storage unchanged, and the transfer-metric increments already performed for
the successful transactions of the prefix remain applied. -/
theorem accepted_staging_failure_metrics (env : AcceptedEnv)
    (s : AcceptedState) (blk : Block) (pre rest : List Tx)
    (rpre rrest : List TxResult) (tx : Tx) (r : TxResult) (e : Nat)
    (hstore : env.cfg.storeTransactions = true)
    (htxs : blk.txs = pre ++ tx :: rest)
    (hrs : blk.results = rpre ++ r :: rrest)
    (hlen : pre.length = rpre.length)
    (hok : ∀ p ∈ pre.zip rpre,
        env.stageFails (mkRecord p.1 blk.timestamp p.2) = none)
    (hfail : env.stageFails (mkRecord tx blk.timestamp r) = some e) :
    Accepted env s blk
      = .error ⟨s.storage, s.transferCount + transferDelta (pre.zip rpre)⟩
          (.raw e) := by
  unfold Accepted
  rw [hstore, htxs, hrs,
    acceptedLoop_err_split env.stageFails blk.timestamp pre rpre tx r rest
      rrest [] 0 e hlen hok hfail]
  simp

/-! ## Claim theorems about `Initialize` and `Rules` -/

/-- C3: `Initialize` is all-or-nothing — for every collaborator outcome it
either returns a nil error with all seven outputs populated, or a non-nil
error with all seven outputs nil; never a partial result. -/
theorem init_all_or_nothing (env : InitEnv) :
    ((initCtrl env).1.err = none
      ∧ (initCtrl env).1.genesis.isSome = true
      ∧ (initCtrl env).1.build.isSome = true
      ∧ (initCtrl env).1.gossip.isSome = true
      ∧ (initCtrl env).1.handlers.isSome = true
      ∧ (initCtrl env).1.actionRegistry.isSome = true
      ∧ (initCtrl env).1.authRegistry.isSome = true
      ∧ (initCtrl env).1.authEngines.isSome = true)
    ∨ ((initCtrl env).1.err.isSome = true
      ∧ (initCtrl env).1.genesis = none
      ∧ (initCtrl env).1.build = none
      ∧ (initCtrl env).1.gossip = none
      ∧ (initCtrl env).1.handlers = none
      ∧ (initCtrl env).1.actionRegistry = none
      ∧ (initCtrl env).1.authRegistry = none
      ∧ (initCtrl env).1.authEngines = none) := by
  obtain ⟨me, cr, ge, gd, se, he, pe⟩ := env
  cases me with
  | some e => simp [initCtrl, allNil]
  | none =>
    cases cr with
    | error e => simp [initCtrl, allNil]
    | ok cfg =>
      obtain ⟨ll, tm, st⟩ := cfg
      cases ge <;> cases se <;> cases he <;> cases pe <;> cases tm <;>
        simp [initCtrl, allNil]

/-- Environment for the C4 counterexample: metrics instantiation succeeds,
configuration parsing fails with error code 5. -/
def cexEnv4 : InitEnv := ⟨none, .error 5, none, ⟨0⟩, none, none, none⟩

/-- C4 counterexample: on malformed configuration, `Initialize` does fail
with the configuration error, but configuration parsing was not its first
step — the controller fields were assigned and the metrics were
instantiated and registered with the gatherer before the failure point. -/
theorem init_config_first_cex :
    (initCtrl cexEnv4).1.err = some (.raw 5)
    ∧ (initCtrl cexEnv4).2.metricsRegistered = true
    ∧ (initCtrl cexEnv4).2.fieldsAssigned = true := by decide

/-- C4 (amended): on malformed configuration input (with the preceding
metrics instantiation succeeding), `Initialize` fails with the
configuration error and the all-nil tuple, with no log level applied and no
storage opened; the metrics registration performed before config parsing
has, however, already happened. -/
theorem init_config_error_effects (env : InitEnv) (e : Nat)
    (hm : env.metricsErr = none) (hc : env.configRes = .error e) :
    (initCtrl env).1 = allNil (.raw e)
    ∧ (initCtrl env).2.logLevelSet = none
    ∧ (initCtrl env).2.storageOpened = false
    ∧ (initCtrl env).2.metricsRegistered = true := by
  obtain ⟨me, cr, ge, gd, se, he, pe⟩ := env
  simp only at hm hc
  subst hm hc
  simp [initCtrl]

/-- C5: whenever `Initialize` succeeds, its builder/gossiper pair is
determined solely by the parsed configuration's `TestMode` flag: the manual
pair in test mode, and the time-driven builder with the proposer gossiper
under the default parameters otherwise. -/
theorem init_mode_selection (env : InitEnv) (cfg : Config)
    (hc : env.configRes = .ok cfg)
    (hok : (initCtrl env).1.err = none) :
    (initCtrl env).1.build
        = some (if cfg.testMode then .manual else .time)
    ∧ (initCtrl env).1.gossip
        = some (if cfg.testMode then .manual
                else .proposer defaultProposerConfig) := by
  obtain ⟨me, cr, ge, gd, se, he, pe⟩ := env
  simp only at hc
  subst hc
  cases me with
  | some e => simp [initCtrl, allNil] at hok
  | none =>
    obtain ⟨ll, tm, st⟩ := cfg
    cases ge with
    | some e => simp [initCtrl, allNil] at hok
    | none =>
      cases se with
      | some e => simp [initCtrl, allNil] at hok
      | none =>
        cases he with
        | some e => simp [initCtrl, allNil] at hok
        | none =>
          cases tm with
          | true => simp [initCtrl]
          | false =>
            cases pe with
            | some e => simp [initCtrl, allNil] at hok
            | none => simp [initCtrl]

/-- C8: `Rules(t)` is the pure projection of the immutable genesis snapshot
together with the stored network id and chain id — the returned rule set
embeds both identifiers for any timestamp — and the call leaves every
controller field unchanged. -/
theorem rules_pure (c : Controller) (t : Int) :
    (c.Rules t).2 = c
    ∧ (c.Rules t).1 = c.genesis.rules t c.networkID c.chainID
    ∧ (c.Rules t).1.networkID = c.networkID
    ∧ (c.Rules t).1.chainID = c.chainID :=
  ⟨rfl, rfl, rfl, rfl⟩

/-- Environment for the C9 counterexample: metrics instantiation fails with
underlying error code 7. -/
def cexEnv9 : InitEnv := ⟨some 7, .ok ⟨0, true, false⟩, none, ⟨0⟩, none, none, none⟩

/-- C9 counterexample: the metrics-instantiation error is returned to the
caller unmodified — it carries no added context identifying the failed
phase — refuting the claim that every error is wrapped before return. -/
theorem init_error_wrap_cex :
    (initCtrl cexEnv9).1.err = some (.raw 7)
    ∧ Err.isWrapped (.raw 7) = false := by decide

/-- C9 (amended): no error is swallowed — each failing collaborator's error
reaches the caller — but only the genesis-parse error is wrapped with phase
context; the metrics, config, storage-open, handler and proposer errors of
`Initialize` and every error returned by `Accepted` are propagated
unmodified. -/
theorem error_propagation (env : InitEnv) (aenv : AcceptedEnv)
    (s : AcceptedState) (blk : Block) :
    (∀ e, env.metricsErr = some e →
        (initCtrl env).1.err = some (.raw e))
    ∧ (∀ e, env.metricsErr = none → env.configRes = .error e →
        (initCtrl env).1.err = some (.raw e))
    ∧ (∀ cfg e, env.metricsErr = none → env.configRes = .ok cfg →
        env.genesisErr = some e →
        (initCtrl env).1.err = some (.genesisWrap e))
    ∧ (∀ cfg e, env.metricsErr = none → env.configRes = .ok cfg →
        env.genesisErr = none → env.storageErr = some e →
        (initCtrl env).1.err = some (.raw e))
    ∧ (∀ cfg e, env.metricsErr = none → env.configRes = .ok cfg →
        env.genesisErr = none → env.storageErr = none →
        env.handlerErr = some e →
        (initCtrl env).1.err = some (.raw e))
    ∧ (∀ cfg e, env.metricsErr = none → env.configRes = .ok cfg →
        env.genesisErr = none → env.storageErr = none →
        env.handlerErr = none → cfg.testMode = false →
        env.proposerErr = some e →
        (initCtrl env).1.err = some (.raw e))
    ∧ (∀ s' E, Accepted aenv s blk = .error s' E → E.isWrapped = false) := by
  refine ⟨?_, ?_, ?_, ?_, ?_, ?_, ?_⟩
  · intro e hm
    simp [initCtrl, hm, allNil]
  · intro e hm hc
    simp [initCtrl, hm, hc, allNil]
  · intro cfg e hm hc hg
    simp [initCtrl, hm, hc, hg, allNil]
  · intro cfg e hm hc hg hs
    simp [initCtrl, hm, hc, hg, hs, allNil]
  · intro cfg e hm hc hg hs hh
    simp [initCtrl, hm, hc, hg, hs, hh, allNil]
  · intro cfg e hm hc hg hs hh htm hp
    simp [initCtrl, hm, hc, hg, hs, hh, htm, hp, allNil]
  · intro s' E h
    unfold Accepted at h
    cases hl : acceptedLoop aenv.cfg.storeTransactions aenv.stageFails
        blk.timestamp blk.txs blk.results [] 0 with
    | panicked d => rw [hl] at h; simp at h
    | err e d =>
      rw [hl] at h
      simp only [AcceptedOutcome.error.injEq] at h
      rw [← h.2]
      rfl
    | ok batch d =>
      rw [hl] at h
      cases hcm : aenv.commitErr with
      | some e =>
        rw [hcm] at h
        simp only [AcceptedOutcome.error.injEq] at h
        rw [← h.2]
        rfl
      | none => rw [hcm] at h; simp at h

/-! ## Concrete witnesses -/

/-- Witness environment: archival enabled, staging never fails, commit
succeeds. -/
def wEnv : AcceptedEnv := ⟨⟨0, false, true⟩, fun _ => none, none⟩

/-- Witness environment in which staging the record of the transaction with
id 6 fails with underlying error code 3. -/
def wEnvFail : AcceptedEnv :=
  ⟨⟨0, false, true⟩, fun rec => if rec.txid = 6 then some 3 else none, none⟩

/-- Witness block: two transactions, the first successful with one transfer
action, the second unsuccessful. -/
def wBlk : Block :=
  ⟨[⟨5, [.transfer]⟩, ⟨6, [.other 1]⟩], [⟨true, 2, 1⟩, ⟨false, 0, 0⟩], 100⟩

/-- Witness block with fewer results than transactions. -/
def wBlkShort : Block := ⟨[⟨5, [.transfer]⟩, ⟨6, []⟩], [⟨true, 2, 1⟩], 100⟩

/-- Witness start state: empty storage, zero transfer count. -/
def wSt : AcceptedState := ⟨[], 0⟩

/-- The state after a successful `Accepted` of `wBlk` from `wSt`. -/
def wOk : AcceptedState := ⟨[⟨5, 100, true, 2, 1⟩, ⟨6, 100, false, 0, 0⟩], 1⟩

/-- Witness for C1 at a concrete block with archival enabled. -/
theorem accepted_success_archival_witness :
    (wEnv.cfg.storeTransactions = true →
        wOk.storage = wSt.storage ++ (wBlk.txs.zip wBlk.results).map
            (fun p => ⟨p.1.id, wBlk.timestamp, p.2.success, p.2.units, p.2.fee⟩)
      ∧ wOk.storage.length = wSt.storage.length + wBlk.txs.length)
    ∧ (wEnv.cfg.storeTransactions = false → wOk.storage = wSt.storage) :=
  accepted_success_archival wEnv wSt wBlk wOk (by decide) (by decide)

/-- Witness for C2 at a concrete block whose second staging call fails. -/
theorem accepted_error_no_write_witness :
    (AcceptedState.mk wSt.storage 1).storage = wSt.storage :=
  accepted_error_no_write wEnvFail wSt wBlk ⟨wSt.storage, 1⟩ (.raw 3)
    (by decide)

/-- Witness for the amended C6 at a concrete block. -/
theorem accepted_transfer_metric_witness :
    wOk.transferCount
      = wSt.transferCount + transferDelta (wBlk.txs.zip wBlk.results) :=
  accepted_transfer_metric wEnv wSt wBlk wOk (by decide)

/-- Witness for C7: no panic on a fully paired block, a panic on a block
with a missing result. -/
theorem accepted_results_indexing_witness :
    (Accepted wEnv wSt wBlk).isPanic = false
    ∧ (Accepted wEnv wSt wBlkShort).isPanic = true :=
  ⟨(accepted_results_indexing wEnv wSt wBlk).1 (by decide),
   (accepted_results_indexing wEnv wSt wBlkShort).2 (by decide) (fun _ => rfl)⟩

/-- Witness for C10: the staging failure on the second transaction keeps the
metric increment earned by the first. -/
theorem accepted_staging_failure_metrics_witness :
    Accepted wEnvFail wSt wBlk
      = .error ⟨wSt.storage, wSt.transferCount
            + transferDelta
                ([(⟨5, [.transfer]⟩ : Tx)].zip [(⟨true, 2, 1⟩ : TxResult)])⟩
          (.raw 3) :=
  accepted_staging_failure_metrics wEnvFail wSt wBlk [⟨5, [.transfer]⟩] []
    [⟨true, 2, 1⟩] [] ⟨6, [.other 1]⟩ ⟨false, 0, 0⟩ 3 (by decide) (by decide)
    (by decide) (by decide) (by decide) (by decide)

/-- Witness for the amended C4 at a concrete malformed-config environment. -/
theorem init_config_error_effects_witness :
    (initCtrl cexEnv4).1 = allNil (.raw 5)
    ∧ (initCtrl cexEnv4).2.logLevelSet = none
    ∧ (initCtrl cexEnv4).2.storageOpened = false
    ∧ (initCtrl cexEnv4).2.metricsRegistered = true :=
  init_config_error_effects cexEnv4 5 rfl rfl

/-- Witness environment for C5: a successful non-test-mode run. -/
def wEnv5 : InitEnv := ⟨none, .ok ⟨2, false, true⟩, none, ⟨3⟩, none, none, none⟩

/-- Witness for C5 at a concrete successful non-test-mode environment. -/
theorem init_mode_selection_witness :
    (initCtrl wEnv5).1.build
        = some (if (⟨2, false, true⟩ : Config).testMode then .manual else .time)
    ∧ (initCtrl wEnv5).1.gossip
        = some (if (⟨2, false, true⟩ : Config).testMode then .manual
                else .proposer defaultProposerConfig) :=
  init_mode_selection wEnv5 ⟨2, false, true⟩ rfl (by decide)

/-- Witness environment for the genesis branch of the amended C9. -/
def wEnv9g : InitEnv := ⟨none, .ok ⟨0, true, false⟩, some 4, ⟨0⟩, none, none, none⟩

/-- Witness environment for the config branch of the amended C9. -/
def wEnv9c : InitEnv := ⟨none, .error 5, none, ⟨0⟩, none, none, none⟩

/-- Witness for the amended C9: a raw metrics error, a raw config error, a
wrapped genesis error, and an unwrapped `Accepted` error, each at a concrete
environment. -/
theorem error_propagation_witness :
    (initCtrl cexEnv9).1.err = some (.raw 7)
    ∧ (initCtrl wEnv9c).1.err = some (.raw 5)
    ∧ (initCtrl wEnv9g).1.err = some (.genesisWrap 4)
    ∧ Err.isWrapped (.raw 3) = false :=
  ⟨(error_propagation cexEnv9 wEnv wSt wBlk).1 7 rfl,
   (error_propagation wEnv9c wEnv wSt wBlk).2.1 5 rfl rfl,
   (error_propagation wEnv9g wEnv wSt wBlk).2.2.1 ⟨0, true, false⟩ 4 rfl rfl
     rfl,
   (error_propagation wEnv9g wEnvFail wSt wBlk).2.2.2.2.2.2
     ⟨wSt.storage, 1⟩ (.raw 3) (by decide)⟩
